/-
Verification of the college event feedback analysis pipeline
(src/college_event_feedback_analysis.py).

The pipeline is five sequential stages over one tabular structure:
generator, cleaner, sentiment scorer, visualizer, insight reporter.
We embed the table as a list of rows; ratings become rationals (pandas
converts integer columns to float as soon as a NaN is injected, so the
cell domain really is a superset of the integers), missing numeric cells
become `Option`, and the external sentiment scorer is a parameter
`score_polarity : String → ℚ`.
-/
import Mathlib

set_option maxHeartbeats 1000000

/-- One survey response, the base schema before sentiment scoring.
`timestamp` is hours since the fixed start (hourly cadence);
the three secondary ratings are `Option` because the generator injects
missing values there. -/
structure Row where
  timestamp : Nat
  overallRating : ℚ
  speakerRating : Option ℚ
  workshopRating : Option ℚ
  foodRating : Option ℚ
  whatDidYouLike : String
  improvements : String
  attendedEvents : String
  yearOfStudy : ℚ
  deriving DecidableEq, Repr

/-- A default row, used only as the `getD` fallback in statements. -/
def defaultRow : Row :=
  { timestamp := 0, overallRating := 0, speakerRating := none,
    workshopRating := none, foodRating := none, whatDidYouLike := "",
    improvements := "", attendedEvents := "", yearOfStudy := 0 }

/-- The table threaded through the pipeline.  `yearCategorical` records
whether `YearOfStudy` has been recast to the categorical dtype (the
recast changes representation only, never values). -/
structure Table where
  rows : List Row
  yearCategorical : Bool
  deriving DecidableEq, Repr

/-- The values of a column in ascending order. -/
def sortedRats (l : List ℚ) : List ℚ :=
  List.insertionSort (fun a b => a ≤ b) l

/-- pandas `Series.median` over the non-missing values: sort, take the
middle element for odd length, the average of the two central order
statistics for even length; `none` on an empty list (pandas returns NaN
there). -/
def median (l : List ℚ) : Option ℚ :=
  if l = [] then none
  else if (sortedRats l).length % 2 = 1 then
    some ((sortedRats l).getD ((sortedRats l).length / 2) 0)
  else
    some (((sortedRats l).getD ((sortedRats l).length / 2 - 1) 0 +
           (sortedRats l).getD ((sortedRats l).length / 2) 0) / 2)

/-- `Series.fillna`: a missing cell takes the fill value (which is itself
optional: filling with NaN leaves the cell missing), a present cell is
unchanged. -/
def fillna (v : Option ℚ) (c : Option ℚ) : Option ℚ :=
  match c with
  | none => v
  | some x => some x

/-- The fill value `clean_data` uses for the SpeakerRating column: the
column median over non-missing values when any value is missing
(`if df[col].isnull().any()`), otherwise no fill happens at all. -/
def spkFill (t : Table) : Option ℚ :=
  if t.rows.any (fun r => r.speakerRating.isNone) then
    median (t.rows.filterMap (fun r => r.speakerRating))
  else none

/-- The fill value `clean_data` uses for the WorkshopRating column. -/
def wkFill (t : Table) : Option ℚ :=
  if t.rows.any (fun r => r.workshopRating.isNone) then
    median (t.rows.filterMap (fun r => r.workshopRating))
  else none

/-- The fill value `clean_data` uses for the FoodRating column. -/
def fdFill (t : Table) : Option ℚ :=
  if t.rows.any (fun r => r.foodRating.isNone) then
    median (t.rows.filterMap (fun r => r.foodRating))
  else none

/-- The per-row effect of `clean_data`: fill each missing secondary
rating with its column's fill value, replace empty text with the
sentinel "No feedback". -/
def cleanRow (t : Table) (r : Row) : Row :=
  { r with
    speakerRating := fillna (spkFill t) r.speakerRating
    workshopRating := fillna (wkFill t) r.workshopRating
    foodRating := fillna (fdFill t) r.foodRating
    improvements := if r.improvements = "" then "No feedback" else r.improvements
    whatDidYouLike := if r.whatDidYouLike = "" then "No feedback" else r.whatDidYouLike }

/-- `clean_data`: for each of the three secondary rating columns, if any
value is missing, fill the missing cells with the column's median over
non-missing values (each median computed once, from the input column);
replace empty strings in the two text columns with the sentinel
"No feedback"; recast `YearOfStudy` to categorical. -/
def clean_data (t : Table) : Table :=
  { rows := t.rows.map (cleanRow t)
    yearCategorical := true }

/-- `get_sentiment_category`: polarity above 0.1 is Positive, below -0.1
is Negative, everything else (both boundaries included) is Neutral. -/
def get_sentiment_category (polarity : ℚ) : String :=
  if polarity > 1/10 then "Positive"
  else if polarity < -(1/10) then "Negative"
  else "Neutral"

/-- A row after the sentiment-scoring stage: the base fields plus the two
polarity floats and their category labels. -/
structure ScoredRow extends Row where
  like_sentiment : ℚ
  improvements_sentiment : ℚ
  like_sentiment_category : String
  improvements_sentiment_category : String
  deriving DecidableEq, Repr

/-- `perform_sentiment_analysis`, parametrized by the external
lexicon-based scorer `score_polarity` (TextBlob in the source): adds the
two polarity columns and their categories to every row. -/
def perform_sentiment_analysis (score_polarity : String → ℚ) (t : Table) :
    List ScoredRow :=
  t.rows.map (fun r =>
    { toRow := r
      like_sentiment := score_polarity r.whatDidYouLike
      improvements_sentiment := score_polarity r.improvements
      like_sentiment_category :=
        get_sentiment_category (score_polarity r.whatDidYouLike)
      improvements_sentiment_category :=
        get_sentiment_category (score_polarity r.improvements) })

/-- The 10-element cycle of `WhatDidYouLike` texts used by the generator. -/
def likeTexts : List String :=
  ["The keynote speaker was inspiring.",
   "I loved the hands-on workshop.",
   "The food was great and there were many options.",
   "Networking with professionals was the best part.",
   "The event was well-organized.",
   "Good food",
   "Nothing much",
   "The sessions were very informative.",
   "I enjoyed the variety of topics covered.",
   "The venue was excellent."]

/-- The 10-element cycle of `Improvements` texts used by the generator. -/
def improvementTexts : List String :=
  ["The workshop was too crowded.",
   "More vegetarian food options would be nice.",
   "The breaks were too short.",
   "It was hard to find the rooms.",
   "The audio in the main hall was not clear.",
   "Better signage",
   "More interactive sessions",
   "The registration process was a bit slow.",
   "Wi-Fi was unstable.",
   "I wish there were more Q&A opportunities."]

/-- The 10-element cycle of `AttendedEvents` label sets used by the generator. -/
def attendedTexts : List String :=
  ["Keynote, Workshop, Networking",
   "Keynote, Workshop",
   "Networking",
   "Keynote, Networking",
   "Workshop",
   "Keynote",
   "Workshop, Networking",
   "Keynote, Workshop, Networking",
   "Networking",
   "Keynote, Workshop"]

/-- `create_dummy_data`, parametrized by the unseeded random source: the
four `randint(1, 6)` draws and the `randint(1, 5)` year draw become
functions out of `Fin 100` (a `Fin 5` / `Fin 4` draw shifted by 1), and
the four `df.sample` index sets (10% per secondary rating column,
sampled independently per column, and 5% for `Improvements`) become
`Finset (Fin 100)` parameters.  Timestamps are hours since the fixed
start; the three text columns cycle their 10-element lists. -/
def create_dummy_data
    (overall speaker workshop food : Fin 100 → Fin 5)
    (years : Fin 100 → Fin 4)
    (sSpk sWk sFd sImp : Finset (Fin 100)) : Table :=
  { rows := (List.finRange 100).map (fun i =>
      { timestamp := i.val
        overallRating := ((overall i).val + 1 : ℚ)
        speakerRating :=
          if i ∈ sSpk then none else some (((speaker i).val + 1 : ℚ))
        workshopRating :=
          if i ∈ sWk then none else some (((workshop i).val + 1 : ℚ))
        foodRating :=
          if i ∈ sFd then none else some (((food i).val + 1 : ℚ))
        whatDidYouLike := likeTexts.getD (i.val % 10) ""
        improvements :=
          if i ∈ sImp then "" else improvementTexts.getD (i.val % 10) ""
        attendedEvents := attendedTexts.getD (i.val % 10) ""
        yearOfStudy := ((years i).val + 1 : ℚ) })
    yearCategorical := false }

/-- The positive word-cloud corpus: `" ".join` of `WhatDidYouLike` over
the rows whose like-sentiment category is Positive. -/
def positive_feedback (rows : List ScoredRow) : String :=
  String.intercalate " "
    ((rows.filter (fun r => r.like_sentiment_category = "Positive")).map
      (fun r => r.whatDidYouLike))

/-- The negative word-cloud corpus: `" ".join` of `Improvements` over the
rows whose improvements-sentiment category is Negative. -/
def negative_feedback (rows : List ScoredRow) : String :=
  String.intercalate " "
    ((rows.filter (fun r => r.improvements_sentiment_category = "Negative")).map
      (fun r => r.improvements))

/-- Modelled from the spec: the external word-frequency-to-image renderer
(`render_wordcloud(corpus, ...)`, the WordCloud library in the source, not
part of this repository).  Per the spec, on an empty corpus the renderer
fails and, the source performing no guard, the failure is an uncaught
fatal error; we model the artifact as `Unit` and the failure as
`Except.error`. -/
def render_wordcloud (corpus : String) : Except String Unit :=
  if corpus = "" then Except.error "EmptyCorpusError" else Except.ok ()

/-- The word-cloud part of `visualize_data`: build both corpora and render
them in order; a renderer failure propagates (no guard in the source). -/
def visualize_wordclouds (rows : List ScoredRow) : Except String Unit :=
  match render_wordcloud (positive_feedback rows) with
  | Except.error e => Except.error e
  | Except.ok _ => render_wordcloud (negative_feedback rows)

/-- The distinct `YearOfStudy` labels in ascending order — pandas
`groupby` sorts group keys ascending. -/
def yearLabels (rows : List ScoredRow) : List ℚ :=
  List.insertionSort (fun a b => a ≤ b) ((rows.map (fun r => r.yearOfStudy)).dedup)

/-- Mean `OverallRating` of the rows with the given `YearOfStudy` label. -/
def groupMean (rows : List ScoredRow) (y : ℚ) : ℚ :=
  let g := rows.filter (fun r => r.yearOfStudy = y)
  ((g.map (fun r => r.overallRating)).sum) / (g.length : ℚ)

/-- `df.groupby(YearOfStudy)[OverallRating].mean()`: the (label, mean)
pairs in ascending label order. -/
def group_means (rows : List ScoredRow) : List (ℚ × ℚ) :=
  (yearLabels rows).map (fun y => (y, groupMean rows y))

/-- One step of the idxmin scan: keep the earlier candidate on ties. -/
def idxminStep (p : ℚ × ℚ) (acc : Option (ℚ × ℚ)) : Option (ℚ × ℚ) :=
  match acc with
  | none => some p
  | some q => if q.2 < p.2 then some q else some p

/-- pandas `Series.idxmin` over a keyed sequence: the first (key, value)
pair attaining the minimal value. -/
def idxmin : List (ℚ × ℚ) → Option (ℚ × ℚ)
  | [] => none
  | p :: rest => idxminStep p (idxmin rest)

/-- The demographics insight of `generate_insights`: the `YearOfStudy`
group with the minimal mean `OverallRating`, together with that minimal
mean (`year_ratings.idxmin()` and `year_ratings.min()`). -/
def generate_insights_lowest (rows : List ScoredRow) : Option (ℚ × ℚ) :=
  idxmin (group_means rows)

unseal Rat.add Rat.mul Rat.inv Nat.gcd in
theorem median_example_odd : median [1, 2, 2, 4, 5] = some 2 := by decide

unseal Rat.add Rat.mul Rat.inv Nat.gcd in
theorem median_example_even : median [1, 2, 4, 5] = some 3 := by decide

/-! ### Helper lemmas -/

/-- `get_sentiment_category` only ever returns one of the three labels. -/
theorem get_sentiment_category_mem (p : ℚ) :
    get_sentiment_category p = "Positive" ∨ get_sentiment_category p = "Neutral" ∨
      get_sentiment_category p = "Negative" := by
  unfold get_sentiment_category
  split
  · exact Or.inl rfl
  · split
    · exact Or.inr (Or.inr rfl)
    · exact Or.inr (Or.inl rfl)

/-- A nonempty list of rationals has a median. -/
theorem median_isSome_of_ne_nil {l : List ℚ} (h : l ≠ []) :
    (median l).isSome = true := by
  unfold median
  simp only [h, if_false]
  split <;> rfl

/-! ### C1: the three-way sentiment categorization -/

/-- C1: the sentiment category of a polarity is a total deterministic
three-way function: `p > 0.1` yields Positive, `p < -0.1` yields
Negative, and every other `p` — the boundary values `0.1` and `-0.1`
included — yields Neutral. -/
theorem C1_sentiment_category_threeway (p : ℚ) :
    (p > 1/10 → get_sentiment_category p = "Positive") ∧
    (p < -(1/10) → get_sentiment_category p = "Negative") ∧
    (-(1/10) ≤ p → p ≤ 1/10 → get_sentiment_category p = "Neutral") ∧
    get_sentiment_category (1/10) = "Neutral" ∧
    get_sentiment_category (-(1/10)) = "Neutral" := by
  unfold get_sentiment_category
  refine ⟨?_, ?_, ?_, ?_, ?_⟩
  · intro h; rw [if_pos h]
  · intro h; rw [if_neg (by linarith), if_pos h]
  · intro h1 h2; rw [if_neg (by linarith), if_neg (by linarith)]
  · rw [if_neg (by norm_num), if_neg (by norm_num)]
  · rw [if_neg (by norm_num), if_neg (by norm_num)]

unseal Rat.add Rat.mul Rat.inv Nat.gcd in
/-- Witness for C1 at the concrete polarities 1/5, -1/5. -/
theorem C1_sentiment_category_threeway_witness :
    ((1:ℚ)/5 > 1/10 ∧ get_sentiment_category (1/5) = "Positive") ∧
    (-(1:ℚ)/5 < -(1/10) ∧ get_sentiment_category (-(1/5)) = "Negative") ∧
    (-(1:ℚ)/10 ≤ 0 ∧ (0:ℚ) ≤ 1/10 ∧ get_sentiment_category 0 = "Neutral") :=
  ⟨⟨by decide, (C1_sentiment_category_threeway (1/5)).1 (by decide)⟩,
   ⟨by decide, (C1_sentiment_category_threeway (-(1/5))).2.1 (by decide)⟩,
   ⟨by decide, by decide,
    (C1_sentiment_category_threeway 0).2.2.1 (by decide) (by decide)⟩⟩

/-! ### C9: the category columns only hold the three labels -/

/-- C9 (implicit): after the scoring stage, both category columns of
every row hold a value from {Positive, Neutral, Negative}, for any
external polarity scorer; the visualizer and reporter stages only read
the table (their embeddings return artifacts, not tables), so the
invariant is preserved downstream. -/
theorem C9_category_columns_closed (score_polarity : String → ℚ) (t : Table)
    (r : ScoredRow) (h : r ∈ perform_sentiment_analysis score_polarity t) :
    (r.like_sentiment_category = "Positive" ∨
      r.like_sentiment_category = "Neutral" ∨
      r.like_sentiment_category = "Negative") ∧
    (r.improvements_sentiment_category = "Positive" ∨
      r.improvements_sentiment_category = "Neutral" ∨
      r.improvements_sentiment_category = "Negative") := by
  obtain ⟨r0, _, rfl⟩ := List.mem_map.mp h
  exact ⟨get_sentiment_category_mem _, get_sentiment_category_mem _⟩

/-- A one-row table used by several witnesses. -/
def wTable : Table :=
  { rows := [{ timestamp := 0, overallRating := 4, speakerRating := some 3,
               workshopRating := some 4, foodRating := some 5,
               whatDidYouLike := "Good food", improvements := "Better signage",
               attendedEvents := "Keynote", yearOfStudy := 2 }]
    yearCategorical := false }

unseal Rat.add Rat.mul Rat.inv Nat.gcd in
/-- Witness for C9 on a concrete one-row table with the zero scorer. -/
theorem C9_category_columns_closed_witness :
    ∃ r ∈ perform_sentiment_analysis (fun _ => 0) wTable,
      (r.like_sentiment_category = "Positive" ∨
        r.like_sentiment_category = "Neutral" ∨
        r.like_sentiment_category = "Negative") ∧
      (r.improvements_sentiment_category = "Positive" ∨
        r.improvements_sentiment_category = "Neutral" ∨
        r.improvements_sentiment_category = "Negative") := by
  refine ⟨(perform_sentiment_analysis (fun _ => 0) wTable).getD 0 ⟨defaultRow, 0, 0, "", ""⟩,
    by decide, C9_category_columns_closed (fun _ => 0) wTable _ (by decide)⟩

/-! ### C2: the cleaner leaves no missing / empty cells -/

/-- A table whose SpeakerRating column is entirely missing: the median of
zero non-missing values is undefined (NaN in pandas), and `fillna(NaN)`
leaves the cells missing. -/
def cexAllMissing : Table :=
  { rows := [{ timestamp := 0, overallRating := 3, speakerRating := none,
               workshopRating := some 3, foodRating := some 3,
               whatDidYouLike := "Good food", improvements := "Better signage",
               attendedEvents := "Keynote", yearOfStudy := 1 }]
    yearCategorical := false }

/-- Counterexample to C2 as stated: on a base-schema table whose
SpeakerRating column is entirely missing, the cleaned table still has a
missing SpeakerRating cell. -/
theorem C2_counterexample_all_missing :
    ∃ r ∈ (clean_data cexAllMissing).rows, r.speakerRating = none := by decide

/-- Core cleaner guarantee: if each secondary rating column that has a
missing cell also has a non-missing cell, the cleaned table has no
missing secondary ratings and no empty text cells. -/
theorem cleaner_fills_all (t : Table)
    (hs : t.rows.any (fun r => r.speakerRating.isNone) = true →
      ∃ r ∈ t.rows, r.speakerRating.isSome = true)
    (hw : t.rows.any (fun r => r.workshopRating.isNone) = true →
      ∃ r ∈ t.rows, r.workshopRating.isSome = true)
    (hf : t.rows.any (fun r => r.foodRating.isNone) = true →
      ∃ r ∈ t.rows, r.foodRating.isSome = true) :
    ∀ r ∈ (clean_data t).rows,
      r.speakerRating.isSome = true ∧ r.workshopRating.isSome = true ∧
      r.foodRating.isSome = true ∧
      r.whatDidYouLike ≠ "" ∧ r.improvements ≠ "" := by
  intro r hr
  simp only [clean_data, List.mem_map] at hr
  obtain ⟨r0, hr0, rfl⟩ := hr
  refine ⟨?_, ?_, ?_, ?_, ?_⟩
  · cases h0 : r0.speakerRating with
    | some x => simp [cleanRow, fillna, h0]
    | none =>
      have hany : t.rows.any (fun r => r.speakerRating.isNone) = true :=
        List.any_eq_true.mpr ⟨r0, hr0, by simp [h0]⟩
      obtain ⟨r1, hr1, h1⟩ := hs hany
      obtain ⟨v, hv⟩ := Option.isSome_iff_exists.mp h1
      have hne : t.rows.filterMap (fun r => r.speakerRating) ≠ [] :=
        List.ne_nil_of_mem (List.mem_filterMap.mpr ⟨r1, hr1, hv⟩)
      simp only [cleanRow, h0, fillna, spkFill]
      rw [if_pos hany]
      exact median_isSome_of_ne_nil hne
  · cases h0 : r0.workshopRating with
    | some x => simp [cleanRow, fillna, h0]
    | none =>
      have hany : t.rows.any (fun r => r.workshopRating.isNone) = true :=
        List.any_eq_true.mpr ⟨r0, hr0, by simp [h0]⟩
      obtain ⟨r1, hr1, h1⟩ := hw hany
      obtain ⟨v, hv⟩ := Option.isSome_iff_exists.mp h1
      have hne : t.rows.filterMap (fun r => r.workshopRating) ≠ [] :=
        List.ne_nil_of_mem (List.mem_filterMap.mpr ⟨r1, hr1, hv⟩)
      simp only [cleanRow, h0, fillna, wkFill]
      rw [if_pos hany]
      exact median_isSome_of_ne_nil hne
  · cases h0 : r0.foodRating with
    | some x => simp [cleanRow, fillna, h0]
    | none =>
      have hany : t.rows.any (fun r => r.foodRating.isNone) = true :=
        List.any_eq_true.mpr ⟨r0, hr0, by simp [h0]⟩
      obtain ⟨r1, hr1, h1⟩ := hf hany
      obtain ⟨v, hv⟩ := Option.isSome_iff_exists.mp h1
      have hne : t.rows.filterMap (fun r => r.foodRating) ≠ [] :=
        List.ne_nil_of_mem (List.mem_filterMap.mpr ⟨r1, hr1, hv⟩)
      simp only [cleanRow, h0, fillna, fdFill]
      rw [if_pos hany]
      exact median_isSome_of_ne_nil hne
  · show (if r0.whatDidYouLike = "" then "No feedback" else r0.whatDidYouLike) ≠ ""
    split
    · decide
    · assumption
  · show (if r0.improvements = "" then "No feedback" else r0.improvements) ≠ ""
    split
    · decide
    · assumption

/-- C2 (amended): for every input table in which each secondary rating
column that has a missing cell also has at least one non-missing cell,
the cleaned table has no missing values in the three secondary rating
columns and no empty strings in the two text columns.  (As literally
stated the claim fails when a column is entirely missing — see the
counterexample above — since the median of zero values is NaN and
`fillna(NaN)` leaves the cells missing.) -/
theorem C2_cleaner_no_missing_no_empty (t : Table)
    (hs : t.rows.any (fun r => r.speakerRating.isNone) = true →
      ∃ r ∈ t.rows, r.speakerRating.isSome = true)
    (hw : t.rows.any (fun r => r.workshopRating.isNone) = true →
      ∃ r ∈ t.rows, r.workshopRating.isSome = true)
    (hf : t.rows.any (fun r => r.foodRating.isNone) = true →
      ∃ r ∈ t.rows, r.foodRating.isSome = true) :
    ∀ r ∈ (clean_data t).rows,
      r.speakerRating.isSome = true ∧ r.workshopRating.isSome = true ∧
      r.foodRating.isSome = true ∧
      r.whatDidYouLike ≠ "" ∧ r.improvements ≠ "" :=
  cleaner_fills_all t hs hw hf

/-- A two-row table with one missing SpeakerRating and one empty
Improvements cell, used by witnesses for the cleaner claims. -/
def wDirty : Table :=
  { rows := [{ timestamp := 0, overallRating := 5, speakerRating := none,
               workshopRating := some 4, foodRating := some 5,
               whatDidYouLike := "Good food", improvements := "",
               attendedEvents := "Keynote", yearOfStudy := 1 },
             { timestamp := 1, overallRating := 2, speakerRating := some 3,
               workshopRating := some 2, foodRating := some 1,
               whatDidYouLike := "Nothing much", improvements := "Better signage",
               attendedEvents := "Workshop", yearOfStudy := 3 }]
    yearCategorical := false }

unseal Rat.add Rat.mul Rat.inv Nat.gcd in
/-- Witness for the amended C2 on a concrete dirty table. -/
theorem C2_cleaner_no_missing_no_empty_witness :
    (List.any wDirty.rows (fun r => r.speakerRating.isNone) = true →
      ∃ r ∈ wDirty.rows, r.speakerRating.isSome = true) ∧
    ∀ r ∈ (clean_data wDirty).rows,
      r.speakerRating.isSome = true ∧ r.workshopRating.isSome = true ∧
      r.foodRating.isSome = true ∧
      r.whatDidYouLike ≠ "" ∧ r.improvements ≠ "" :=
  ⟨by decide,
   C2_cleaner_no_missing_no_empty wDirty (by decide) (by decide) (by decide)⟩

/-! ### C3: missing cells are filled with the column median -/

/-- The cleaner preserves the number of rows. -/
theorem clean_data_length (t : Table) :
    (clean_data t).rows.length = t.rows.length := by
  simp [clean_data]

/-- Row `i` of the cleaned table is row `i` of the input, cleaned. -/
theorem clean_data_get (t : Table) (i : ℕ) (h : i < t.rows.length)
    (hc : i < (clean_data t).rows.length) :
    (clean_data t).rows.get ⟨i, hc⟩ = cleanRow t (t.rows.get ⟨i, h⟩) := by
  simp [clean_data]

/-- C3: every missing cell of a secondary rating column that contains a
missing value is filled with the median of that column's non-missing
values, computed once per column from the input, with the standard
median convention — fill value 2 for non-missing values [1,2,2,4,5] and
3 for [1,2,4,5]. -/
theorem C3_missing_filled_with_median (t : Table) :
    (∀ i (h : i < t.rows.length) (hc : i < (clean_data t).rows.length),
      (t.rows.get ⟨i, h⟩).speakerRating = none →
      ((clean_data t).rows.get ⟨i, hc⟩).speakerRating
        = median (t.rows.filterMap (fun r => r.speakerRating))) ∧
    (∀ i (h : i < t.rows.length) (hc : i < (clean_data t).rows.length),
      (t.rows.get ⟨i, h⟩).workshopRating = none →
      ((clean_data t).rows.get ⟨i, hc⟩).workshopRating
        = median (t.rows.filterMap (fun r => r.workshopRating))) ∧
    (∀ i (h : i < t.rows.length) (hc : i < (clean_data t).rows.length),
      (t.rows.get ⟨i, h⟩).foodRating = none →
      ((clean_data t).rows.get ⟨i, hc⟩).foodRating
        = median (t.rows.filterMap (fun r => r.foodRating))) ∧
    median [1, 2, 2, 4, 5] = some 2 ∧ median [1, 2, 4, 5] = some 3 := by
  refine ⟨?_, ?_, ?_, median_example_odd, median_example_even⟩
  · intro i h hc h0
    have hmem : t.rows.get ⟨i, h⟩ ∈ t.rows := t.rows.get_mem i h
    have h0g : (t.rows[i]).speakerRating = none := h0
    rw [clean_data_get t i h hc]
    simp only [cleanRow, h0, fillna, spkFill]
    rw [if_pos (List.any_eq_true.mpr ⟨t.rows.get ⟨i, h⟩, hmem, by simp [h0g]⟩)]
  · intro i h hc h0
    have hmem : t.rows.get ⟨i, h⟩ ∈ t.rows := t.rows.get_mem i h
    have h0g : (t.rows[i]).workshopRating = none := h0
    rw [clean_data_get t i h hc]
    simp only [cleanRow, h0, fillna, wkFill]
    rw [if_pos (List.any_eq_true.mpr ⟨t.rows.get ⟨i, h⟩, hmem, by simp [h0g]⟩)]
  · intro i h hc h0
    have hmem : t.rows.get ⟨i, h⟩ ∈ t.rows := t.rows.get_mem i h
    have h0g : (t.rows[i]).foodRating = none := h0
    rw [clean_data_get t i h hc]
    simp only [cleanRow, h0, fillna, fdFill]
    rw [if_pos (List.any_eq_true.mpr ⟨t.rows.get ⟨i, h⟩, hmem, by simp [h0g]⟩)]

unseal Rat.add Rat.mul Rat.inv Nat.gcd in
/-- Witness for C3: in `wDirty` the missing SpeakerRating of row 0 is
filled with the median of the non-missing values. -/
theorem C3_missing_filled_with_median_witness :
    (wDirty.rows.get ⟨0, by decide⟩).speakerRating = none ∧
    ((clean_data wDirty).rows.get ⟨0, by decide⟩).speakerRating
      = median (wDirty.rows.filterMap (fun r => r.speakerRating)) :=
  ⟨by decide,
   (C3_missing_filled_with_median wDirty).1 0 (by decide) (by decide) (by decide)⟩

/-! ### C4: the cleaner is idempotent on clean tables -/

/-- Mapping a function that fixes every member of a list is the identity. -/
theorem map_eq_self_of {α : Type} {l : List α} {f : α → α}
    (h : ∀ x ∈ l, f x = x) : l.map f = l := by
  induction l with
  | nil => rfl
  | cons a l ih =>
    simp only [List.map_cons, h a (by simp), List.cons.injEq, true_and]
    exact ih (fun x hx => h x (by simp [hx]))

/-- C4: on an already-clean table (no missing secondary ratings, no
empty text cells, `YearOfStudy` already categorical) the cleaner is the
identity. -/
theorem C4_cleaner_idempotent (t : Table) (hcat : t.yearCategorical = true)
    (hclean : ∀ r ∈ t.rows,
      r.speakerRating.isSome = true ∧ r.workshopRating.isSome = true ∧
      r.foodRating.isSome = true ∧ r.whatDidYouLike ≠ "" ∧ r.improvements ≠ "") :
    clean_data t = t := by
  have hrows : t.rows.map (cleanRow t) = t.rows := by
    apply map_eq_self_of
    intro r hr
    obtain ⟨h1, h2, h3, h4, h5⟩ := hclean r hr
    obtain ⟨v1, hv1⟩ := Option.isSome_iff_exists.mp h1
    obtain ⟨v2, hv2⟩ := Option.isSome_iff_exists.mp h2
    obtain ⟨v3, hv3⟩ := Option.isSome_iff_exists.mp h3
    simp [cleanRow, fillna, hv1, hv2, hv3, h4, h5]
    rw [← hv1, ← hv2, ← hv3]
  cases t with
  | mk rows cat =>
    simp only [clean_data] at hrows ⊢
    simp only at hcat
    rw [hrows, hcat]

/-- An already-clean one-row table for the C4 witness. -/
def wClean : Table :=
  { rows := [{ timestamp := 0, overallRating := 4, speakerRating := some 3,
               workshopRating := some 4, foodRating := some 5,
               whatDidYouLike := "Good food", improvements := "Better signage",
               attendedEvents := "Keynote", yearOfStudy := 2 }]
    yearCategorical := true }

/-- Witness for C4 on a concrete already-clean table. -/
theorem C4_cleaner_idempotent_witness :
    wClean.yearCategorical = true ∧ clean_data wClean = wClean :=
  ⟨by decide, C4_cleaner_idempotent wClean (by decide) (by decide)⟩

/-! ### C5: empty positive corpus and the word-cloud renderer -/

/-- A cleaned one-row table whose only like-text will score non-positive. -/
def cexNoPositive : Table :=
  { rows := [{ timestamp := 0, overallRating := 3, speakerRating := some 3,
               workshopRating := some 3, foodRating := some 3,
               whatDidYouLike := "Nothing much", improvements := "Better signage",
               attendedEvents := "Keynote", yearOfStudy := 1 }]
    yearCategorical := true }

/-- The scored rows of `cexNoPositive` under a scorer mapping every text
to polarity 0 (TextBlob indeed scores both texts at 0.0). -/
def cexNoPositiveScored : List ScoredRow :=
  perform_sentiment_analysis (fun _ => 0) cexNoPositive

unseal Rat.add Rat.mul Rat.inv Nat.gcd in
/-- C5: with zero Positive rows for the like text, the positive corpus
is the empty string; but the source has no guard, so the word-cloud
stage fails on the empty corpus (renderer behaviour modelled from the
spec) and the failure propagates — the run crashes, contrary to the
claim's second half. -/
theorem C5_empty_corpus_crashes :
    (∀ r ∈ cexNoPositiveScored, r.like_sentiment_category ≠ "Positive") ∧
    positive_feedback cexNoPositiveScored = "" ∧
    visualize_wordclouds cexNoPositiveScored = Except.error "EmptyCorpusError" := by
  refine ⟨by decide, by decide, ?_⟩
  show (match render_wordcloud (positive_feedback cexNoPositiveScored) with
        | Except.error e => Except.error e
        | Except.ok _ => render_wordcloud (negative_feedback cexNoPositiveScored))
      = Except.error "EmptyCorpusError"
  rfl

/-! ### C6: cleaned rating values -/

/-- A base-schema table with integer ratings 1–5 where present: the
SpeakerRating column has non-missing values [1, 2] and a missing cell
(so the fill value is the non-integer 3/2), and the WorkshopRating
column is entirely missing. -/
def cexHalfInteger : Table :=
  { rows := [{ timestamp := 0, overallRating := 5, speakerRating := some 1,
               workshopRating := none, foodRating := some 2,
               whatDidYouLike := "Good food", improvements := "Better signage",
               attendedEvents := "Keynote", yearOfStudy := 1 },
             { timestamp := 1, overallRating := 4, speakerRating := some 2,
               workshopRating := none, foodRating := some 3,
               whatDidYouLike := "Nothing much", improvements := "Better signage",
               attendedEvents := "Keynote", yearOfStudy := 2 },
             { timestamp := 2, overallRating := 3, speakerRating := none,
               workshopRating := none, foodRating := some 4,
               whatDidYouLike := "Good food", improvements := "Better signage",
               attendedEvents := "Keynote", yearOfStudy := 3 }]
    yearCategorical := false }

unseal Rat.add Rat.mul Rat.inv Nat.gcd in
/-- Counterexample to C6 as stated: cleaning `cexHalfInteger` puts the
non-integer 3/2 into the SpeakerRating column (median of the even-count
non-missing values [1, 2]), and the all-missing WorkshopRating column is
still missing after cleaning. -/
theorem C6_counterexample_half_integer :
    ((clean_data cexHalfInteger).rows.map (fun r => r.speakerRating))
      = [some 1, some 2, some (3/2)] ∧
    (¬ ∃ n : ℤ, (3/2 : ℚ) = (n : ℚ)) ∧
    ((clean_data cexHalfInteger).rows.map (fun r => r.workshopRating))
      = [none, none, none] := by
  refine ⟨by decide, ?_, by decide⟩
  rintro ⟨n, hn⟩
  have hd : ((n : ℚ)).den = 1 := Rat.den_intCast n
  rw [← hn] at hd
  have h2 : (3/2 : ℚ).den = 2 := by decide
  rw [h2] at hd
  exact absurd hd (by decide)

/-- The median of a list of values inside `[a, b]` stays inside `[a, b]`. -/
theorem median_mem_Icc {l : List ℚ} {a b : ℚ} (hl : ∀ x ∈ l, a ≤ x ∧ x ≤ b)
    {m : ℚ} (hm : median l = some m) : a ≤ m ∧ m ≤ b := by
  by_cases hnil : l = []
  · rw [hnil] at hm
    simp [median] at hm
  · have hperm := List.perm_insertionSort (fun a b => a ≤ b) l
    have hsl : ∀ x ∈ sortedRats l, a ≤ x ∧ x ≤ b := fun x hx =>
      hl x (hperm.mem_iff.mp hx)
    have hpos : 0 < (sortedRats l).length := by
      show 0 < (List.insertionSort (fun a b => a ≤ b) l).length
      rw [hperm.length_eq]
      exact List.length_pos.mpr hnil
    have hlt2 : (sortedRats l).length / 2 < (sortedRats l).length :=
      Nat.div_lt_self hpos (by norm_num)
    have hlt1 : (sortedRats l).length / 2 - 1 < (sortedRats l).length :=
      lt_of_le_of_lt (Nat.sub_le _ _) hlt2
    have hmem2 : (sortedRats l).getD ((sortedRats l).length / 2) 0 ∈ sortedRats l := by
      rw [List.getD_eq_getElem _ _ hlt2]
      exact List.get_mem _ _ _
    have hmem1 : (sortedRats l).getD ((sortedRats l).length / 2 - 1) 0 ∈ sortedRats l := by
      rw [List.getD_eq_getElem _ _ hlt1]
      exact List.get_mem _ _ _
    unfold median at hm
    rw [if_neg hnil] at hm
    split at hm
    · obtain rfl := Option.some.inj hm
      exact hsl _ hmem2
    · obtain rfl := Option.some.inj hm
      obtain ⟨ha1, hb1⟩ := hsl _ hmem1
      obtain ⟨ha2, hb2⟩ := hsl _ hmem2
      constructor <;> linarith

/-- C6 (amended): for every base-schema table whose present rating
values lie in [1, 5] and in which each secondary rating column with a
missing cell has at least one non-missing cell, the cleaned table's
rating values all lie in [1, 5] (they need not be integers: an
even-count median fill can be a half-integer, see the counterexample)
and the three secondary rating columns are never missing. -/
theorem C6_cleaned_ratings_in_range (t : Table)
    (hvals : ∀ r ∈ t.rows,
      (1 ≤ r.overallRating ∧ r.overallRating ≤ 5) ∧
      (∀ v ∈ r.speakerRating, 1 ≤ v ∧ v ≤ 5) ∧
      (∀ v ∈ r.workshopRating, 1 ≤ v ∧ v ≤ 5) ∧
      (∀ v ∈ r.foodRating, 1 ≤ v ∧ v ≤ 5))
    (hs : t.rows.any (fun r => r.speakerRating.isNone) = true →
      ∃ r ∈ t.rows, r.speakerRating.isSome = true)
    (hw : t.rows.any (fun r => r.workshopRating.isNone) = true →
      ∃ r ∈ t.rows, r.workshopRating.isSome = true)
    (hf : t.rows.any (fun r => r.foodRating.isNone) = true →
      ∃ r ∈ t.rows, r.foodRating.isSome = true) :
    ∀ r ∈ (clean_data t).rows,
      (1 ≤ r.overallRating ∧ r.overallRating ≤ 5) ∧
      (∀ v ∈ r.speakerRating, 1 ≤ v ∧ v ≤ 5) ∧
      (∀ v ∈ r.workshopRating, 1 ≤ v ∧ v ≤ 5) ∧
      (∀ v ∈ r.foodRating, 1 ≤ v ∧ v ≤ 5) ∧
      r.speakerRating.isSome = true ∧ r.workshopRating.isSome = true ∧
      r.foodRating.isSome = true := by
  intro r hr
  have hfill := cleaner_fills_all t hs hw hf r hr
  simp only [clean_data, List.mem_map] at hr
  obtain ⟨r0, hr0, rfl⟩ := hr
  obtain ⟨ho, hsv, hwv, hfv⟩ := hvals r0 hr0
  refine ⟨ho, ?_, ?_, ?_, hfill.1, hfill.2.1, hfill.2.2.1⟩
  · intro v hv
    cases h0 : r0.speakerRating with
    | some x =>
      have hcell : (cleanRow t r0).speakerRating = some x := by
        simp [cleanRow, fillna, h0]
      rw [hcell, Option.mem_def] at hv
      obtain rfl := Option.some.inj hv
      exact hsv x (by rw [h0]; rfl)
    | none =>
      have hcell : (cleanRow t r0).speakerRating = spkFill t := by
        simp [cleanRow, fillna, h0]
      rw [hcell] at hv
      unfold spkFill at hv
      split at hv
      · rw [Option.mem_def] at hv
        refine median_mem_Icc ?_ hv
        intro x hx
        rw [List.mem_filterMap] at hx
        obtain ⟨r1, hr1, hx1⟩ := hx
        exact (hvals r1 hr1).2.1 x (Option.mem_def.mpr hx1)
      · simp at hv
  · intro v hv
    cases h0 : r0.workshopRating with
    | some x =>
      have hcell : (cleanRow t r0).workshopRating = some x := by
        simp [cleanRow, fillna, h0]
      rw [hcell, Option.mem_def] at hv
      obtain rfl := Option.some.inj hv
      exact hwv x (by rw [h0]; rfl)
    | none =>
      have hcell : (cleanRow t r0).workshopRating = wkFill t := by
        simp [cleanRow, fillna, h0]
      rw [hcell] at hv
      unfold wkFill at hv
      split at hv
      · rw [Option.mem_def] at hv
        refine median_mem_Icc ?_ hv
        intro x hx
        rw [List.mem_filterMap] at hx
        obtain ⟨r1, hr1, hx1⟩ := hx
        exact (hvals r1 hr1).2.2.1 x (Option.mem_def.mpr hx1)
      · simp at hv
  · intro v hv
    cases h0 : r0.foodRating with
    | some x =>
      have hcell : (cleanRow t r0).foodRating = some x := by
        simp [cleanRow, fillna, h0]
      rw [hcell, Option.mem_def] at hv
      obtain rfl := Option.some.inj hv
      exact hfv x (by rw [h0]; rfl)
    | none =>
      have hcell : (cleanRow t r0).foodRating = fdFill t := by
        simp [cleanRow, fillna, h0]
      rw [hcell] at hv
      unfold fdFill at hv
      split at hv
      · rw [Option.mem_def] at hv
        refine median_mem_Icc ?_ hv
        intro x hx
        rw [List.mem_filterMap] at hx
        obtain ⟨r1, hr1, hx1⟩ := hx
        exact (hvals r1 hr1).2.2.2 x (Option.mem_def.mpr hx1)
      · simp at hv

unseal Rat.add Rat.mul Rat.inv Nat.gcd in
/-- Witness for the amended C6 on the concrete dirty table `wDirty`. -/
theorem C6_cleaned_ratings_in_range_witness :
    (∀ r ∈ wDirty.rows,
      (1 ≤ r.overallRating ∧ r.overallRating ≤ 5) ∧
      (∀ v ∈ r.speakerRating, 1 ≤ v ∧ v ≤ 5) ∧
      (∀ v ∈ r.workshopRating, 1 ≤ v ∧ v ≤ 5) ∧
      (∀ v ∈ r.foodRating, 1 ≤ v ∧ v ≤ 5)) ∧
    ∀ r ∈ (clean_data wDirty).rows,
      (1 ≤ r.overallRating ∧ r.overallRating ≤ 5) ∧
      (∀ v ∈ r.speakerRating, 1 ≤ v ∧ v ≤ 5) ∧
      (∀ v ∈ r.workshopRating, 1 ≤ v ∧ v ≤ 5) ∧
      (∀ v ∈ r.foodRating, 1 ≤ v ∧ v ≤ 5) ∧
      r.speakerRating.isSome = true ∧ r.workshopRating.isSome = true ∧
      r.foodRating.isSome = true :=
  ⟨by decide,
   C6_cleaned_ratings_in_range wDirty (by decide) (by decide) (by decide) (by decide)⟩

/-! ### C10: the cleaner only repairs, nothing else -/

/-- C10 (implicit): the cleaner preserves the row count, recasts only
the categorical flag, and changes no cell other than the ones it
repairs: non-missing secondary ratings, non-empty text cells, and all
Timestamp / OverallRating / AttendedEvents / YearOfStudy cells are
returned unchanged. -/
theorem C10_cleaner_frame (t : Table) :
    (clean_data t).rows.length = t.rows.length ∧
    (clean_data t).yearCategorical = true ∧
    ∀ i (h : i < t.rows.length) (hc : i < (clean_data t).rows.length),
      ((clean_data t).rows.get ⟨i, hc⟩).timestamp = (t.rows.get ⟨i, h⟩).timestamp ∧
      ((clean_data t).rows.get ⟨i, hc⟩).overallRating
        = (t.rows.get ⟨i, h⟩).overallRating ∧
      ((clean_data t).rows.get ⟨i, hc⟩).attendedEvents
        = (t.rows.get ⟨i, h⟩).attendedEvents ∧
      ((clean_data t).rows.get ⟨i, hc⟩).yearOfStudy
        = (t.rows.get ⟨i, h⟩).yearOfStudy ∧
      (∀ v, (t.rows.get ⟨i, h⟩).speakerRating = some v →
        ((clean_data t).rows.get ⟨i, hc⟩).speakerRating = some v) ∧
      (∀ v, (t.rows.get ⟨i, h⟩).workshopRating = some v →
        ((clean_data t).rows.get ⟨i, hc⟩).workshopRating = some v) ∧
      (∀ v, (t.rows.get ⟨i, h⟩).foodRating = some v →
        ((clean_data t).rows.get ⟨i, hc⟩).foodRating = some v) ∧
      ((t.rows.get ⟨i, h⟩).whatDidYouLike ≠ "" →
        ((clean_data t).rows.get ⟨i, hc⟩).whatDidYouLike
          = (t.rows.get ⟨i, h⟩).whatDidYouLike) ∧
      ((t.rows.get ⟨i, h⟩).improvements ≠ "" →
        ((clean_data t).rows.get ⟨i, hc⟩).improvements
          = (t.rows.get ⟨i, h⟩).improvements) := by
  refine ⟨clean_data_length t, rfl, ?_⟩
  intro i h hc
  rw [clean_data_get t i h hc]
  refine ⟨rfl, rfl, rfl, rfl, ?_, ?_, ?_, ?_, ?_⟩
  · intro v hv
    simp [cleanRow, fillna, show t.rows[i].speakerRating = some v from hv]
  · intro v hv
    simp [cleanRow, fillna, show t.rows[i].workshopRating = some v from hv]
  · intro v hv
    simp [cleanRow, fillna, show t.rows[i].foodRating = some v from hv]
  · intro hne
    show (if (t.rows.get ⟨i, h⟩).whatDidYouLike = "" then "No feedback"
          else (t.rows.get ⟨i, h⟩).whatDidYouLike) = _
    rw [if_neg hne]
  · intro hne
    show (if (t.rows.get ⟨i, h⟩).improvements = "" then "No feedback"
          else (t.rows.get ⟨i, h⟩).improvements) = _
    rw [if_neg hne]

unseal Rat.add Rat.mul Rat.inv Nat.gcd in
/-- Witness for C10 on `wDirty`, row 1 (all cells present). -/
theorem C10_cleaner_frame_witness :
    (wDirty.rows.get ⟨1, by decide⟩).speakerRating = some 3 ∧
    ((clean_data wDirty).rows.get ⟨1, by decide⟩).speakerRating = some 3 ∧
    ((clean_data wDirty).rows.get ⟨1, by decide⟩).overallRating
      = (wDirty.rows.get ⟨1, by decide⟩).overallRating :=
  ⟨by decide,
   ((C10_cleaner_frame wDirty).2.2 1 (by decide) (by decide)).2.2.2.2.1 3 (by decide),
   ((C10_cleaner_frame wDirty).2.2 1 (by decide) (by decide)).2.1⟩

/-! ### C7: the generator's contract -/

/-- Counting the members of a `Finset (Fin n)` along `finRange n`. -/
theorem countP_finRange_mem (n : ℕ) (s : Finset (Fin n)) :
    (List.finRange n).countP (fun i => decide (i ∈ s)) = s.card := by
  rw [List.countP_eq_length_filter]
  have h2 : ((List.finRange n).filter (fun i => decide (i ∈ s))).toFinset = s := by
    ext x
    simp [List.mem_filter, List.mem_finRange]
  conv_rhs => rw [← h2]
  rw [List.toFinset_card_of_nodup (List.Nodup.filter _ (List.nodup_finRange n))]

/-- Every entry of the `Improvements` cycle is a non-empty string. -/
theorem improvementTexts_getD_ne_empty (k : ℕ) :
    improvementTexts.getD (k % 10) "" ≠ "" := by
  set m := k % 10 with hm
  have h : m < 10 := Nat.mod_lt _ (by norm_num)
  interval_cases m <;> decide

/-- Row `i` of the generated table, in closed form. -/
theorem create_dummy_data_row (ov sp wk fd : Fin 100 → Fin 5) (yr : Fin 100 → Fin 4)
    (sSpk sWk sFd sImp : Finset (Fin 100)) (i : Fin 100) :
    (create_dummy_data ov sp wk fd yr sSpk sWk sFd sImp).rows.getD i.val defaultRow
      = { timestamp := i.val
          overallRating := ((ov i).val + 1 : ℚ)
          speakerRating := if i ∈ sSpk then none else some (((sp i).val + 1 : ℚ))
          workshopRating := if i ∈ sWk then none else some (((wk i).val + 1 : ℚ))
          foodRating := if i ∈ sFd then none else some (((fd i).val + 1 : ℚ))
          whatDidYouLike := likeTexts.getD (i.val % 10) ""
          improvements := if i ∈ sImp then "" else improvementTexts.getD (i.val % 10) ""
          attendedEvents := attendedTexts.getD (i.val % 10) ""
          yearOfStudy := ((yr i).val + 1 : ℚ) } := by
  have hi : i.val < ((create_dummy_data ov sp wk fd yr sSpk sWk sFd sImp).rows).length := by
    simp [create_dummy_data]
  rw [List.getD_eq_getElem _ _ hi]
  simp [create_dummy_data]

/-- A `Fin 5` draw shifted by 1 lies in [1, 5] (as a rational). -/
theorem fin5_cast_bounds (x : Fin 5) :
    1 ≤ ((x.val + 1 : ℚ)) ∧ ((x.val + 1 : ℚ)) ≤ 5 := by
  have h4 : x.val ≤ 4 := Nat.lt_succ_iff.mp x.isLt
  have h0 : (0:ℚ) ≤ (x.val : ℚ) := Nat.cast_nonneg _
  have h4q : (x.val : ℚ) ≤ 4 := by exact_mod_cast h4
  constructor <;> linarith

/-- A `Fin 4` draw shifted by 1 lies in [1, 4] (as a rational). -/
theorem fin4_cast_bounds (x : Fin 4) :
    1 ≤ ((x.val + 1 : ℚ)) ∧ ((x.val + 1 : ℚ)) ≤ 4 := by
  have h3 : x.val ≤ 3 := Nat.lt_succ_iff.mp x.isLt
  have h0 : (0:ℚ) ≤ (x.val : ℚ) := Nat.cast_nonneg _
  have h3q : (x.val : ℚ) ≤ 3 := by exact_mod_cast h3
  constructor <;> linarith

/-- C7: for any random draws and any sampled index sets of the sizes
`df.sample` produces (10% of 100 rows per secondary rating column,
independently per column, and 5% for Improvements), the generator
returns exactly 100 rows; each secondary rating column is missing
exactly at its sampled indices (10 cells), Improvements is empty exactly
at its sampled indices (5 cells), ratings lie in 1–5, years in 1–4, the
text columns cycle their 10-element lists, and timestamps advance hourly
from the fixed start. -/
theorem C7_generator (ov sp wk fd : Fin 100 → Fin 5) (yr : Fin 100 → Fin 4)
    (sSpk sWk sFd sImp : Finset (Fin 100)) (t : Table)
    (ht : t = create_dummy_data ov sp wk fd yr sSpk sWk sFd sImp)
    (hcs : sSpk.card = 10) (hcw : sWk.card = 10) (hcf : sFd.card = 10)
    (hci : sImp.card = 5) :
    t.rows.length = 100 ∧
    t.rows.countP (fun r => r.speakerRating.isNone) = 10 ∧
    t.rows.countP (fun r => r.workshopRating.isNone) = 10 ∧
    t.rows.countP (fun r => r.foodRating.isNone) = 10 ∧
    t.rows.countP (fun r => r.improvements = "") = 5 ∧
    ∀ i : Fin 100, ∀ R, R = t.rows.getD i.val defaultRow →
      R.timestamp = i.val ∧
      (1 ≤ R.overallRating ∧ R.overallRating ≤ 5) ∧
      (R.speakerRating = none ↔ i ∈ sSpk) ∧
      (∀ v ∈ R.speakerRating, 1 ≤ v ∧ v ≤ 5) ∧
      (R.workshopRating = none ↔ i ∈ sWk) ∧
      (∀ v ∈ R.workshopRating, 1 ≤ v ∧ v ≤ 5) ∧
      (R.foodRating = none ↔ i ∈ sFd) ∧
      (∀ v ∈ R.foodRating, 1 ≤ v ∧ v ≤ 5) ∧
      R.whatDidYouLike = likeTexts.getD (i.val % 10) "" ∧
      (R.improvements = "" ↔ i ∈ sImp) ∧
      (i ∉ sImp → R.improvements = improvementTexts.getD (i.val % 10) "") ∧
      R.attendedEvents = attendedTexts.getD (i.val % 10) "" ∧
      (1 ≤ R.yearOfStudy ∧ R.yearOfStudy ≤ 4) := by
  subst ht
  refine ⟨by simp [create_dummy_data], ?_, ?_, ?_, ?_, ?_⟩
  · simp only [create_dummy_data]
    rw [List.countP_map]
    trans (List.finRange 100).countP (fun i => decide (i ∈ sSpk))
    · apply List.countP_congr
      intro x _
      by_cases h : x ∈ sSpk <;> simp [Function.comp, h]
    · rw [countP_finRange_mem]
      exact hcs
  · simp only [create_dummy_data]
    rw [List.countP_map]
    trans (List.finRange 100).countP (fun i => decide (i ∈ sWk))
    · apply List.countP_congr
      intro x _
      by_cases h : x ∈ sWk <;> simp [Function.comp, h]
    · rw [countP_finRange_mem]
      exact hcw
  · simp only [create_dummy_data]
    rw [List.countP_map]
    trans (List.finRange 100).countP (fun i => decide (i ∈ sFd))
    · apply List.countP_congr
      intro x _
      by_cases h : x ∈ sFd <;> simp [Function.comp, h]
    · rw [countP_finRange_mem]
      exact hcf
  · simp only [create_dummy_data]
    rw [List.countP_map]
    trans (List.finRange 100).countP (fun i => decide (i ∈ sImp))
    · apply List.countP_congr
      intro x _
      by_cases h : x ∈ sImp
      · simp [Function.comp, h]
      · simp only [Function.comp, decide_eq_true_eq]
        rw [if_neg h]
        constructor
        · intro hx
          exact absurd hx (improvementTexts_getD_ne_empty x.val)
        · intro hx
          exact absurd hx h
    · rw [countP_finRange_mem]
      exact hci
  · intro i R hR
    rw [create_dummy_data_row] at hR
    subst hR
    refine ⟨rfl, fin5_cast_bounds (ov i), ?_, ?_, ?_, ?_, ?_, ?_, rfl, ?_, ?_, rfl,
      fin4_cast_bounds (yr i)⟩
    · by_cases h : i ∈ sSpk <;> simp [h]
    · by_cases h : i ∈ sSpk
      · simp [h]
      · rw [if_neg h]
        intro v hv
        obtain rfl := Option.mem_some_iff.mp hv
        exact fin5_cast_bounds (sp i)
    · by_cases h : i ∈ sWk <;> simp [h]
    · by_cases h : i ∈ sWk
      · simp [h]
      · rw [if_neg h]
        intro v hv
        obtain rfl := Option.mem_some_iff.mp hv
        exact fin5_cast_bounds (wk i)
    · by_cases h : i ∈ sFd <;> simp [h]
    · by_cases h : i ∈ sFd
      · simp [h]
      · rw [if_neg h]
        intro v hv
        obtain rfl := Option.mem_some_iff.mp hv
        exact fin5_cast_bounds (fd i)
    · by_cases h : i ∈ sImp
      · simp [h]
      · rw [if_neg h]
        constructor
        · intro hx
          exact absurd hx (improvementTexts_getD_ne_empty i.val)
        · intro hx
          exact absurd hx h
    · intro h
      rw [if_neg h]

/-- Concrete rating draw for the C7 witness. -/
def wDraw5 : Fin 100 → Fin 5 := fun _ => 3

/-- Concrete year draw for the C7 witness. -/
def wDraw4 : Fin 100 → Fin 4 := fun _ => 1

/-- Concrete 10-element sampled index set (rows 0–9). -/
def wMiss10 : Finset (Fin 100) := Finset.filter (fun i => i.val < 10) Finset.univ

/-- Concrete 5-element sampled index set (rows 0–4). -/
def wMiss5 : Finset (Fin 100) := Finset.filter (fun i => i.val < 5) Finset.univ

/-- Witness for C7 on concrete draws and index sets. -/
theorem C7_generator_witness :
    wMiss10.card = 10 ∧ wMiss5.card = 5 ∧
    (create_dummy_data wDraw5 wDraw5 wDraw5 wDraw5 wDraw4
        wMiss10 wMiss10 wMiss10 wMiss5).rows.length = 100 ∧
    (create_dummy_data wDraw5 wDraw5 wDraw5 wDraw5 wDraw4
        wMiss10 wMiss10 wMiss10 wMiss5).rows.countP
      (fun r => r.speakerRating.isNone) = 10 ∧
    (create_dummy_data wDraw5 wDraw5 wDraw5 wDraw5 wDraw4
        wMiss10 wMiss10 wMiss10 wMiss5).rows.countP
      (fun r => r.improvements = "") = 5 :=
  ⟨by decide, by decide,
   (C7_generator wDraw5 wDraw5 wDraw5 wDraw5 wDraw4 wMiss10 wMiss10 wMiss10 wMiss5
      _ rfl (by decide) (by decide) (by decide) (by decide)).1,
   (C7_generator wDraw5 wDraw5 wDraw5 wDraw5 wDraw4 wMiss10 wMiss10 wMiss10 wMiss5
      _ rfl (by decide) (by decide) (by decide) (by decide)).2.1,
   (C7_generator wDraw5 wDraw5 wDraw5 wDraw5 wDraw4 wMiss10 wMiss10 wMiss10 wMiss5
      _ rfl (by decide) (by decide) (by decide) (by decide)).2.2.2.2.1⟩

/-! ### C8: the lowest-rated year group -/

/-- `idxminStep` always yields a candidate. -/
theorem idxminStep_isSome (p : ℚ × ℚ) (o : Option (ℚ × ℚ)) :
    ∃ q, idxminStep p o = some q := by
  cases o with
  | none => exact ⟨p, rfl⟩
  | some q0 =>
    simp only [idxminStep]
    by_cases hq : q0.2 < p.2
    · exact ⟨q0, by rw [if_pos hq]⟩
    · exact ⟨p, by rw [if_neg hq]⟩

/-- `idxmin` yields a candidate on any nonempty sequence. -/
theorem idxmin_isSome {l : List (ℚ × ℚ)} (h : l ≠ []) :
    ∃ q, idxmin l = some q := by
  cases l with
  | nil => exact absurd rfl h
  | cons p rest => exact idxminStep_isSome p (idxmin rest)

/-- `idxmin` only returns `none` on the empty sequence. -/
theorem idxmin_eq_none {l : List (ℚ × ℚ)} (h : idxmin l = none) : l = [] := by
  cases l with
  | nil => rfl
  | cons p rest =>
    obtain ⟨q, hq⟩ := idxminStep_isSome p (idxmin rest)
    rw [show idxmin (p :: rest) = idxminStep p (idxmin rest) from rfl, hq] at h
    cases h

/-- The `idxmin` result is one of the pairs. -/
theorem idxmin_mem {l : List (ℚ × ℚ)} {q : ℚ × ℚ} (h : idxmin l = some q) :
    q ∈ l := by
  induction l with
  | nil => cases h
  | cons p rest ih =>
    rw [show idxmin (p :: rest) = idxminStep p (idxmin rest) from rfl] at h
    cases hr : idxmin rest with
    | none =>
      rw [hr] at h
      obtain rfl := Option.some.inj h
      exact List.mem_cons_self _ _
    | some q0 =>
      rw [hr] at h
      simp only [idxminStep] at h
      by_cases hq : q0.2 < p.2
      · rw [if_pos hq] at h
        obtain rfl := Option.some.inj h
        exact List.mem_cons_of_mem _ (ih hr)
      · rw [if_neg hq] at h
        obtain rfl := Option.some.inj h
        exact List.mem_cons_self _ _

/-- The `idxmin` result attains the minimal value. -/
theorem idxmin_min {l : List (ℚ × ℚ)} :
    ∀ {q : ℚ × ℚ}, idxmin l = some q → ∀ p ∈ l, q.2 ≤ p.2 := by
  induction l with
  | nil => intro q h; cases h
  | cons p rest ih =>
    intro q h
    rw [show idxmin (p :: rest) = idxminStep p (idxmin rest) from rfl] at h
    intro x hx
    rcases List.mem_cons.mp hx with rfl | hx2
    · cases hr : idxmin rest with
      | none =>
        rw [hr] at h
        obtain rfl := Option.some.inj h
        exact le_refl _
      | some q0 =>
        rw [hr] at h
        simp only [idxminStep] at h
        by_cases hq : q0.2 < x.2
        · rw [if_pos hq] at h
          obtain rfl := Option.some.inj h
          exact le_of_lt hq
        · rw [if_neg hq] at h
          obtain rfl := Option.some.inj h
          exact le_refl _
    · cases hr : idxmin rest with
      | none =>
        rw [idxmin_eq_none hr] at hx2
        cases hx2
      | some q0 =>
        have hq0 := ih hr x hx2
        rw [hr] at h
        simp only [idxminStep] at h
        by_cases hq : q0.2 < p.2
        · rw [if_pos hq] at h
          obtain rfl := Option.some.inj h
          exact hq0
        · rw [if_neg hq] at h
          obtain rfl := Option.some.inj h
          exact le_trans (not_lt.mp hq) hq0

/-- Among the pairs tied at the minimal value, for a key-sorted sequence
`idxmin` returns the first, hence the one with the least key. -/
theorem idxmin_first {l : List (ℚ × ℚ)} :
    ∀ {q : ℚ × ℚ}, idxmin l = some q →
    l.Pairwise (fun a b => a.1 ≤ b.1) →
    ∀ p ∈ l, p.2 = q.2 → q.1 ≤ p.1 := by
  induction l with
  | nil => intro q h _; cases h
  | cons p rest ih =>
    intro q h hsort
    rw [show idxmin (p :: rest) = idxminStep p (idxmin rest) from rfl] at h
    obtain ⟨hp, hrest⟩ := List.pairwise_cons.mp hsort
    intro x hx hxq
    rcases List.mem_cons.mp hx with rfl | hx2
    · cases hr : idxmin rest with
      | none =>
        rw [hr] at h
        obtain rfl := Option.some.inj h
        exact le_refl _
      | some q0 =>
        rw [hr] at h
        simp only [idxminStep] at h
        by_cases hq : q0.2 < x.2
        · rw [if_pos hq] at h
          obtain rfl := Option.some.inj h
          exact absurd hxq (ne_of_gt hq)
        · rw [if_neg hq] at h
          obtain rfl := Option.some.inj h
          exact le_refl _
    · cases hr : idxmin rest with
      | none =>
        rw [idxmin_eq_none hr] at hx2
        cases hx2
      | some q0 =>
        rw [hr] at h
        simp only [idxminStep] at h
        by_cases hq : q0.2 < p.2
        · rw [if_pos hq] at h
          obtain rfl := Option.some.inj h
          exact ih hr hrest x hx2 hxq
        · rw [if_neg hq] at h
          obtain rfl := Option.some.inj h
          exact hp x hx2

/-- A nonempty table has at least one year group. -/
theorem group_means_ne_nil {rows : List ScoredRow} (h : rows ≠ []) :
    group_means rows ≠ [] := by
  unfold group_means yearLabels
  intro hcon
  rw [List.map_eq_nil_iff] at hcon
  have hperm := List.perm_insertionSort (fun a b : ℚ => a ≤ b)
    ((rows.map (fun r => r.yearOfStudy)).dedup)
  rw [hcon] at hperm
  have hd := hperm.symm.eq_nil
  rw [List.dedup_eq_nil, List.map_eq_nil_iff] at hd
  exact h hd

/-- The group means are listed in ascending label order. -/
theorem group_means_sorted (rows : List ScoredRow) :
    (group_means rows).Pairwise (fun a b : ℚ × ℚ => a.1 ≤ b.1) := by
  unfold group_means yearLabels
  rw [List.pairwise_map]
  have hs := List.sorted_insertionSort (fun a b : ℚ => a ≤ b)
    ((rows.map (fun r => r.yearOfStudy)).dedup)
  exact hs.imp (fun hab => hab)

/-- C8: on every nonempty scored table the reporter returns a
(year, mean) pair from the group means with the minimal mean, and among
groups tied at that minimum it is the first in ascending label order
(the least label). -/
theorem C8_lowest_rating_year (rows : List ScoredRow) (hne : rows ≠ []) :
    ∃ q, generate_insights_lowest rows = some q ∧
      q ∈ group_means rows ∧
      (∀ p ∈ group_means rows, q.2 ≤ p.2) ∧
      (∀ p ∈ group_means rows, p.2 = q.2 → q.1 ≤ p.1) := by
  obtain ⟨q, hq⟩ := idxmin_isSome (group_means_ne_nil hne)
  exact ⟨q, hq, idxmin_mem hq, idxmin_min hq,
    idxmin_first hq (group_means_sorted rows)⟩

/-- A scored row for the C8 witness. -/
def wScored (ts : Nat) (orat y : ℚ) : ScoredRow :=
  { timestamp := ts, overallRating := orat, speakerRating := some 3,
    workshopRating := some 3, foodRating := some 3,
    whatDidYouLike := "Good food", improvements := "Better signage",
    attendedEvents := "Keynote", yearOfStudy := y,
    like_sentiment := 0, improvements_sentiment := 0,
    like_sentiment_category := "Neutral",
    improvements_sentiment_category := "Neutral" }

/-- Scored rows realizing group means {1: 3.0, 2: 4.5, 3: 2.0, 4: 4.0}. -/
def wInsightRows : List ScoredRow :=
  [wScored 0 3 1, wScored 1 (9/2) 2, wScored 2 2 3, wScored 3 4 4]

unseal Rat.add Rat.mul Rat.inv Nat.gcd in
/-- Witness for C8: on group means {1: 3.0, 2: 4.5, 3: 2.0, 4: 4.0} the
reported lowest-rating year is 3, with minimal mean 2. -/
theorem C8_lowest_rating_year_witness :
    wInsightRows ≠ [] ∧
    (∃ q, generate_insights_lowest wInsightRows = some q ∧
      q ∈ group_means wInsightRows ∧
      (∀ p ∈ group_means wInsightRows, q.2 ≤ p.2) ∧
      (∀ p ∈ group_means wInsightRows, p.2 = q.2 → q.1 ≤ p.1)) ∧
    generate_insights_lowest wInsightRows = some (3, 2) :=
  ⟨List.cons_ne_nil _ _,
   C8_lowest_rating_year wInsightRows (List.cons_ne_nil _ _),
   by decide⟩
